import Mathlib

/-!
Shallow embedding of `src/mcp/server/auth/middleware/bearer_auth.py`:
the `BearerAuthBackend.authenticate` credential authenticator and the
`RequireAuthMiddleware` scope enforcer, together with theorems checking
the specification's claims about them.

Python strings that undergo character-level operations (header names,
header values, tokens) are modelled as `List Char`, matching Python's
view of a `str` as a sequence of code points; scope strings, which are
only ever compared for equality, stay as `String`.
-/

namespace BearerAuth

/-- A Python `str` as a sequence of code points. -/
abbrev PyStr := List Char

/-- Python `str.lower()` restricted to what header names use (ASCII). -/
def pyLower (s : PyStr) : PyStr := s.map Char.toLower

/-- Python `s.startswith(p)`: `p` is a prefix of `s`. -/
def pyStartsWith (s p : PyStr) : Bool := p.isPrefixOf s

/-- Modelled from the spec: the token record returned by the external token
authority (`AuthInfo` from `mcp.server.auth.types`, which is outside this
core): `{subject_id (client_id): string, granted_permissions (scopes):
set of string, expires_at: optional integer (epoch seconds)}`. -/
structure AuthInfo where
  client_id : String
  scopes : List String
  expires_at : Option Int
deriving Repr, DecidableEq

/-- `starlette.authentication.AuthCredentials(scopes)`: carries the scope
list attached by the backend. -/
structure AuthCredentials where
  scopes : List String
deriving Repr, DecidableEq

/-- `AuthenticatedUser(SimpleUser)`: `SimpleUser.__init__` stores the
username; `AuthenticatedUser.__init__` additionally stores the auth info
and its scopes. -/
structure AuthenticatedUser where
  username : String
  auth_info : AuthInfo
  scopes : List String
deriving Repr, DecidableEq

/-- `AuthenticatedUser.__init__(auth_info)`:
`super().__init__(auth_info.client_id)`, `self.auth_info = auth_info`,
`self.scopes = auth_info.scopes`. -/
def AuthenticatedUser.ofAuthInfo (auth_info : AuthInfo) : AuthenticatedUser :=
  { username := auth_info.client_id
    auth_info := auth_info
    scopes := auth_info.scopes }

/-- Header lookup as `conn.headers` performs it: names compare
case-insensitively (the framework lowercases both the stored names and the
lookup key), and the first matching value wins. `"Authorization" not in
conn.headers` and `conn.headers["Authorization"]` both use this lookup. -/
def headersLookup (headers : List (PyStr × PyStr)) (key : PyStr) :
    Option PyStr :=
  (headers.find? (fun h => pyLower h.1 == pyLower key)).map Prod.snd

/-- The expiry test `auth_info.expires_at and auth_info.expires_at <
int(time.time())`: Python truthiness makes both `None` and `0` falsy, so
the comparison only runs for a present, nonzero `expires_at`. -/
def expiryCheck (expires_at : Option Int) (now : Int) : Bool :=
  match expires_at with
  | none => false
  | some e => e != 0 && e < now

/-- The tail of `BearerAuthBackend.authenticate` after the token has been
handed to `self.provider.load_access_token`: `if not auth_info: return
None`, the expiry check, then
`return AuthCredentials(auth_info.scopes), AuthenticatedUser(auth_info)`. -/
def checkToken (auth_info : Option AuthInfo) (now : Int) :
    Option (AuthCredentials × AuthenticatedUser) :=
  match auth_info with
  | none => none
  | some info =>
    if expiryCheck info.expires_at now then none
    else some ({ scopes := info.scopes }, AuthenticatedUser.ofAuthInfo info)

/-- `BearerAuthBackend`: holds only `self.provider`, whose
`load_access_token` is the sole capability the backend uses. -/
structure BearerAuthBackend where
  provider : PyStr → Option AuthInfo

/-- `BearerAuthBackend.authenticate(conn)`: header lookup, the
`auth_header.startswith("Bearer ")` test, `token = auth_header[7:]`,
`await self.provider.load_access_token(token)`, then the expiry check.
`now` stands for `int(time.time())`. -/
def BearerAuthBackend.authenticate (self : BearerAuthBackend)
    (headers : List (PyStr × PyStr)) (now : Int) :
    Option (AuthCredentials × AuthenticatedUser) :=
  match headersLookup headers "Authorization".toList with
  | none => none
  | some auth_header =>
    if pyStartsWith auth_header "Bearer ".toList then
      checkToken (self.provider (auth_header.drop 7)) now
    else none

/-- State-passing form of the `authenticate` method: the Python method
assigns to no attribute of `self`, so the backend after the call is the
backend before it. -/
def BearerAuthBackend.authenticateStep (self : BearerAuthBackend)
    (headers : List (PyStr × PyStr)) (now : Int) :
    Option (AuthCredentials × AuthenticatedUser) × BearerAuthBackend :=
  (self.authenticate headers now, self)

/-- `RequireAuthMiddleware.__init__(app, required_scopes)`. The wrapped
ASGI app is modelled as a state transformer `σ → σ × α`. -/
structure RequireAuthMiddleware (σ α : Type) where
  app : σ → σ × α
  required_scopes : List String

/-- One iteration's test in the `__call__` loop:
`auth_credentials is None or required_scope not in auth_credentials.scopes`. -/
def scopeCheckFails (auth_credentials : Option AuthCredentials)
    (required_scope : String) : Bool :=
  match auth_credentials with
  | none => true
  | some a => !(a.scopes.contains required_scope)

/-- The `for required_scope in self.required_scopes` loop: `true` when some
iteration raises `HTTPException(403)`, short-circuiting in order. -/
def scopesDenied (required_scopes : List String)
    (auth_credentials : Option AuthCredentials) : Bool :=
  match required_scopes with
  | [] => false
  | s :: rest =>
    if scopeCheckFails auth_credentials s then true
    else scopesDenied rest auth_credentials

/-- `RequireAuthMiddleware.__call__(scope, receive, send)`:
`auth_credentials = scope.get("auth")`, the loop raising
`HTTPException(status_code=403, detail="Insufficient scope")`, then
`await self.app(scope, receive, send)`. The raised exception is the
`Except.error` branch; the single app invocation is the `Except.ok`
branch. -/
def RequireAuthMiddleware.call {σ α : Type} (self : RequireAuthMiddleware σ α)
    (auth_credentials : Option AuthCredentials) (st : σ) :
    Except (Nat × String) (σ × α) :=
  if scopesDenied self.required_scopes auth_credentials then
    Except.error (403, "Insufficient scope")
  else
    Except.ok (self.app st)

/-! ### Helper lemmas -/

theorem scopeCheckFails_some_iff (a : AuthCredentials) (s : String) :
    scopeCheckFails (some a) s = false ↔ s ∈ a.scopes := by
  simp [scopeCheckFails, List.contains, List.elem_iff]

theorem scopesDenied_cons_ne_nil (auth : Option AuthCredentials)
    (required : List String) (h : required ≠ []) (hfail : auth = none) :
    scopesDenied required auth = true := by
  cases required with
  | nil => exact absurd rfl h
  | cons s rest => simp [scopesDenied, scopeCheckFails, hfail]

theorem scopesDenied_superset (required : List String) (a : AuthCredentials)
    (h : ∀ s ∈ required, s ∈ a.scopes) :
    scopesDenied required (some a) = false := by
  induction required with
  | nil => rfl
  | cons s rest ih =>
    have hs : scopeCheckFails (some a) s = false :=
      (scopeCheckFails_some_iff a s).mpr (h s (List.mem_cons_self s rest))
    simp only [scopesDenied, hs, if_false]
    exact ih fun t ht => h t (List.mem_cons_of_mem s ht)

theorem scopesDenied_missing (required : List String) (a : AuthCredentials)
    (h : ∃ s ∈ required, s ∉ a.scopes) :
    scopesDenied required (some a) = true := by
  induction required with
  | nil => simp at h
  | cons s rest ih =>
    by_cases hs : scopeCheckFails (some a) s = true
    · simp [scopesDenied, hs]
    · have hs' : scopeCheckFails (some a) s = false := by
        cases hfs : scopeCheckFails (some a) s
        · rfl
        · exact absurd hfs hs
      have hsmem : s ∈ a.scopes := (scopeCheckFails_some_iff a s).mp hs'
      obtain ⟨t, ht, htn⟩ := h
      rcases List.mem_cons.mp ht with rfl | htrest
      · exact absurd hsmem htn
      · simp only [scopesDenied, hs', if_false]
        exact ih ⟨t, htrest, htn⟩

theorem authenticate_eq_checkToken (b : BearerAuthBackend)
    (headers : List (PyStr × PyStr)) (now : Int) (auth_header : PyStr)
    (hh : headersLookup headers "Authorization".toList = some auth_header)
    (hb : pyStartsWith auth_header "Bearer ".toList = true) :
    b.authenticate headers now = checkToken (b.provider (auth_header.drop 7)) now := by
  unfold BearerAuthBackend.authenticate
  rw [hh]
  show (if pyStartsWith auth_header "Bearer ".toList = true then
      checkToken (b.provider (auth_header.drop 7)) now
    else none) = checkToken (b.provider (auth_header.drop 7)) now
  rw [if_pos hb]

/-! ### Claim theorems -/

/-- C1 (amended): if the authentication result is present and its scopes
contain every required scope, `RequireAuthMiddleware.__call__` invokes the
wrapped app once and passes its result through unchanged; if the required
list is nonempty and the result is absent or misses some required scope,
the app is never invoked (the outcome is the same for every app) and a 403
"Insufficient scope" outcome is produced. -/
theorem requireAuth_scope_enforcement {σ α : Type} (required : List String)
    (auth : Option AuthCredentials) (app : σ → σ × α) (st : σ) :
    ((∃ a, auth = some a ∧ ∀ s ∈ required, s ∈ a.scopes) →
        RequireAuthMiddleware.call ⟨app, required⟩ auth st = Except.ok (app st)) ∧
    ((required ≠ [] ∧
        (auth = none ∨ ∃ a, auth = some a ∧ ∃ s ∈ required, s ∉ a.scopes)) →
        ∀ (σ2 α2 : Type) (app2 : σ2 → σ2 × α2) (st2 : σ2),
          RequireAuthMiddleware.call ⟨app2, required⟩ auth st2 =
            Except.error (403, "Insufficient scope")) := by
  constructor
  · rintro ⟨a, rfl, hsup⟩
    simp [RequireAuthMiddleware.call, scopesDenied_superset required a hsup]
  · rintro ⟨hne, hcase⟩ σ2 α2 app2 st2
    have hd : scopesDenied required auth = true := by
      rcases hcase with hnone | ⟨a, rfl, hmiss⟩
      · exact scopesDenied_cons_ne_nil auth required hne hnone
      · exact scopesDenied_missing required a hmiss
    simp [RequireAuthMiddleware.call, hd]

/-- C1 counterexample: with an empty required list and an absent
authentication result, the claim predicts a 403 with the app never invoked,
but `RequireAuthMiddleware.__call__` invokes the app (the counter state
moves from 0 to 1) and passes its result through. -/
theorem requireAuth_absent_auth_empty_list_invokes_app :
    RequireAuthMiddleware.call (σ := Nat) (α := String)
      ⟨fun n => (n + 1, "handled"), []⟩ none 0 = Except.ok (1, "handled") := rfl

/-- Witness for C1 at concrete inputs: a superset case that invokes the app
once, and a missing-scope case that produces the 403. -/
theorem requireAuth_scope_enforcement_witness :
    RequireAuthMiddleware.call (σ := Nat) (α := String)
      ⟨fun n => (n + 1, "ok"), ["read"]⟩ (some ⟨["read", "write"]⟩) 0 =
        Except.ok (1, "ok") ∧
    RequireAuthMiddleware.call (σ := Nat) (α := String)
      ⟨fun n => (n + 1, "ok"), ["read", "write"]⟩ (some ⟨["read"]⟩) 0 =
        Except.error (403, "Insufficient scope") :=
  ⟨(requireAuth_scope_enforcement ["read"] (some ⟨["read", "write"]⟩)
      (fun n : Nat => (n + 1, "ok")) 0).1 ⟨⟨["read", "write"]⟩, rfl, by decide⟩,
   (requireAuth_scope_enforcement ["read", "write"] (some ⟨["read"]⟩)
      (fun n : Nat => (n + 1, "ok")) 0).2
     ⟨by decide, Or.inr ⟨⟨["read"]⟩, rfl, "write", by decide, by decide⟩⟩
     Nat String (fun n => (n + 1, "ok")) 0⟩

/-- C10: with an empty configured `required_scopes` list,
`RequireAuthMiddleware.__call__` invokes the wrapped app exactly once for
every request, including requests with no authentication result attached,
and never produces a 403. -/
theorem requireAuth_empty_required_scopes {σ α : Type}
    (auth : Option AuthCredentials) (app : σ → σ × α) (st : σ) :
    RequireAuthMiddleware.call ⟨app, []⟩ auth st = Except.ok (app st) := rfl

/-- C2 counterexample: a record with `expires_at = 0`, strictly less than
`now = 1`, yields a non-empty authentication result (Python truthiness
skips the expiry comparison for `0`), contradicting the claim that any
`expires_at` strictly below now yields the empty result. -/
theorem authenticate_expired_zero_cex :
    (0 : Int) < 1 ∧
    BearerAuthBackend.authenticate ⟨fun _ => some ⟨"u1", ["read"], some 0⟩⟩
      [("Authorization".toList, "Bearer tok".toList)] 1 ≠ none := by decide

/-- C2 (amended): for every token whose record carries a nonzero
`expires_at` strictly less than the current time, `authenticate` returns
the empty result, the same value as for a request with no Authorization
header. -/
theorem authenticate_expired (b : BearerAuthBackend)
    (headers : List (PyStr × PyStr)) (now : Int) (auth_header : PyStr)
    (info : AuthInfo) (e : Int)
    (hh : headersLookup headers "Authorization".toList = some auth_header)
    (hb : pyStartsWith auth_header "Bearer ".toList = true)
    (hl : b.provider (auth_header.drop 7) = some info)
    (he : info.expires_at = some e) (hne : e ≠ 0) (hlt : e < now) :
    b.authenticate headers now = none := by
  rw [authenticate_eq_checkToken b headers now auth_header hh hb, hl]
  simp [checkToken, expiryCheck, he, hne, hlt]

/-- Witness for C2 (amended) at a concrete expired token. -/
theorem authenticate_expired_witness :
    BearerAuthBackend.authenticate ⟨fun _ => some ⟨"u1", ["read"], some 1⟩⟩
      [("Authorization".toList, "Bearer tok".toList)] 5 = none :=
  authenticate_expired ⟨fun _ => some ⟨"u1", ["read"], some 1⟩⟩
    [("Authorization".toList, "Bearer tok".toList)] 5 "Bearer tok".toList
    ⟨"u1", ["read"], some 1⟩ 1 (by decide) (by decide) rfl rfl (by decide)
    (by decide)

/-- C3: for every token whose record has `expires_at` absent or at least
the current time, `authenticate` returns a non-empty result carrying
exactly the record's subject identifier (`client_id`) and its
granted-permission set (`scopes`). -/
theorem authenticate_valid (b : BearerAuthBackend)
    (headers : List (PyStr × PyStr)) (now : Int) (auth_header : PyStr)
    (info : AuthInfo)
    (hh : headersLookup headers "Authorization".toList = some auth_header)
    (hb : pyStartsWith auth_header "Bearer ".toList = true)
    (hl : b.provider (auth_header.drop 7) = some info)
    (he : info.expires_at = none ∨ ∃ e, info.expires_at = some e ∧ now ≤ e) :
    ∃ cred user, b.authenticate headers now = some (cred, user) ∧
      cred.scopes = info.scopes ∧ user.username = info.client_id ∧
      user.scopes = info.scopes := by
  refine ⟨⟨info.scopes⟩, AuthenticatedUser.ofAuthInfo info, ?_, rfl, rfl, rfl⟩
  rw [authenticate_eq_checkToken b headers now auth_header hh hb, hl]
  have hex : expiryCheck info.expires_at now = false := by
    rcases he with hnone | ⟨e, hsome, hge⟩
    · simp [expiryCheck, hnone]
    · have hnl : ¬ e < now := not_lt.mpr hge
      simp [expiryCheck, hsome, hnl]
  simp [checkToken, hex]

/-- Witness for C3 at a concrete valid token with no expiry. -/
theorem authenticate_valid_witness :
    ∃ cred user,
      BearerAuthBackend.authenticate ⟨fun _ => some ⟨"u1", ["read"], none⟩⟩
        [("Authorization".toList, "Bearer tok-123".toList)] 100 =
        some (cred, user) ∧
      cred.scopes = ["read"] ∧ user.username = "u1" ∧ user.scopes = ["read"] :=
  authenticate_valid ⟨fun _ => some ⟨"u1", ["read"], none⟩⟩
    [("Authorization".toList, "Bearer tok-123".toList)] 100
    "Bearer tok-123".toList ⟨"u1", ["read"], none⟩ (by decide) (by decide) rfl
    (Or.inl rfl)

/-- C4: when no header's name equals "Authorization" case-insensitively,
`authenticate` returns the empty result for every backend, so the token
authority is never consulted; this is the value `none`, not an error. -/
theorem authenticate_no_auth_header (headers : List (PyStr × PyStr))
    (now : Int)
    (h : ∀ p ∈ headers, pyLower p.1 ≠ pyLower "Authorization".toList) :
    ∀ b : BearerAuthBackend, b.authenticate headers now = none := by
  intro b
  have hl : headersLookup headers "Authorization".toList = none := by
    unfold headersLookup
    rw [List.find?_eq_none.mpr ?_]
    · rfl
    · intro p hp
      simp only [beq_iff_eq]
      exact h p hp
  unfold BearerAuthBackend.authenticate
  rw [hl]

/-- Witness for C4 at a concrete request carrying only unrelated headers. -/
theorem authenticate_no_auth_header_witness :
    BearerAuthBackend.authenticate ⟨fun _ => some ⟨"u1", ["read"], none⟩⟩
      [("Content-Type".toList, "text/html".toList)] 100 = none :=
  authenticate_no_auth_header [("Content-Type".toList, "text/html".toList)]
    100 (by decide) ⟨fun _ => some ⟨"u1", ["read"], none⟩⟩

/-- C5: when the Authorization header value does not start with the exact
literal "Bearer " (case-sensitive, one space), `authenticate` returns the
empty result for every backend, so the token authority is never called. -/
theorem authenticate_wrong_scheme (headers : List (PyStr × PyStr))
    (now : Int) (auth_header : PyStr)
    (hh : headersLookup headers "Authorization".toList = some auth_header)
    (hb : pyStartsWith auth_header "Bearer ".toList = false) :
    ∀ b : BearerAuthBackend, b.authenticate headers now = none := by
  intro b
  unfold BearerAuthBackend.authenticate
  rw [hh]
  show (if pyStartsWith auth_header "Bearer ".toList = true then
      checkToken (b.provider (auth_header.drop 7)) now
    else none) = none
  have hfalse : ¬ pyStartsWith auth_header "Bearer ".toList = true := by
    rw [hb]
    exact Bool.false_ne_true
  rw [if_neg hfalse]

/-- Witness for C5 at the three malformed headers the spec lists:
"Basic abc", "bearer xyz" (wrong case) and "Bearer" (no trailing space). -/
theorem authenticate_wrong_scheme_witness :
    BearerAuthBackend.authenticate ⟨fun _ => some ⟨"u1", ["read"], none⟩⟩
      [("Authorization".toList, "Basic abc".toList)] 100 = none ∧
    BearerAuthBackend.authenticate ⟨fun _ => some ⟨"u1", ["read"], none⟩⟩
      [("Authorization".toList, "bearer xyz".toList)] 100 = none ∧
    BearerAuthBackend.authenticate ⟨fun _ => some ⟨"u1", ["read"], none⟩⟩
      [("Authorization".toList, "Bearer".toList)] 100 = none :=
  ⟨authenticate_wrong_scheme [("Authorization".toList, "Basic abc".toList)]
      100 "Basic abc".toList (by decide) (by decide) _,
   authenticate_wrong_scheme [("Authorization".toList, "bearer xyz".toList)]
      100 "bearer xyz".toList (by decide) (by decide) _,
   authenticate_wrong_scheme [("Authorization".toList, "Bearer".toList)]
      100 "Bearer".toList (by decide) (by decide) _⟩

/-- C6: when the token authority returns no record for the presented
token, `authenticate` returns the empty result `none`, the same outcome
as a missing credential, rather than an error. -/
theorem authenticate_no_record (b : BearerAuthBackend)
    (headers : List (PyStr × PyStr)) (now : Int) (auth_header : PyStr)
    (hh : headersLookup headers "Authorization".toList = some auth_header)
    (hb : pyStartsWith auth_header "Bearer ".toList = true)
    (hl : b.provider (auth_header.drop 7) = none) :
    b.authenticate headers now = none := by
  rw [authenticate_eq_checkToken b headers now auth_header hh hb, hl]
  rfl

/-- Witness for C6 with an authority that knows no token. -/
theorem authenticate_no_record_witness :
    BearerAuthBackend.authenticate ⟨fun _ => none⟩
      [("Authorization".toList, "Bearer unknown".toList)] 100 = none :=
  authenticate_no_record ⟨fun _ => none⟩
    [("Authorization".toList, "Bearer unknown".toList)] 100
    "Bearer unknown".toList (by decide) (by decide) rfl

/-- C7: when the header value starts with "Bearer ", the string handed to
the authority's `load_access_token` is exactly the header value with its
first 7 characters removed: the outcome factors through the provider at
`auth_header.drop 7`, and any provider agreeing there yields the same
outcome — including when the remainder is malformed or empty. -/
theorem authenticate_token_passed (headers : List (PyStr × PyStr))
    (now : Int) (auth_header : PyStr)
    (hh : headersLookup headers "Authorization".toList = some auth_header)
    (hb : pyStartsWith auth_header "Bearer ".toList = true) :
    ∀ b : BearerAuthBackend,
      b.authenticate headers now =
        checkToken (b.provider (auth_header.drop 7)) now ∧
      ∀ b2 : BearerAuthBackend,
        b2.provider (auth_header.drop 7) = b.provider (auth_header.drop 7) →
          b2.authenticate headers now = b.authenticate headers now := by
  intro b
  refine ⟨authenticate_eq_checkToken b headers now auth_header hh hb, ?_⟩
  intro b2 hpe
  rw [authenticate_eq_checkToken b2 headers now auth_header hh hb,
    authenticate_eq_checkToken b headers now auth_header hh hb, hpe]

/-- Witness for C7 at the header "Bearer " whose remainder is the empty
token. -/
theorem authenticate_token_passed_witness :
    BearerAuthBackend.authenticate ⟨fun _ => some ⟨"u1", [], none⟩⟩
      [("Authorization".toList, "Bearer ".toList)] 7 =
      checkToken
        ((fun _ => some (⟨"u1", [], none⟩ : AuthInfo)) ("Bearer ".toList.drop 7))
        7 :=
  (authenticate_token_passed [("Authorization".toList, "Bearer ".toList)] 7
    "Bearer ".toList (by decide) (by decide)
    ⟨fun _ => some ⟨"u1", [], none⟩⟩).1

/-- C8: `authenticate` is deterministic and stateless: the state-passing
form leaves the backend unchanged, a repeated run on the same headers and
time yields the same outcome, and any backend with the same provider (the
backend's only state) yields the same outcome. -/
theorem authenticate_stateless (b : BearerAuthBackend)
    (headers : List (PyStr × PyStr)) (now : Int) :
    (b.authenticateStep headers now).2 = b ∧
    ((b.authenticateStep headers now).2.authenticateStep headers now).1 =
      (b.authenticateStep headers now).1 ∧
    ∀ b2 : BearerAuthBackend, b2.provider = b.provider →
      b2.authenticate headers now = b.authenticate headers now := by
  refine ⟨rfl, rfl, ?_⟩
  intro b2 hp
  cases b2 with
  | mk p2 =>
    cases b with
    | mk p =>
      have hpp : p2 = p := hp
      subst hpp
      rfl

/-- Witness for C8 at a concrete backend and request. -/
theorem authenticate_stateless_witness :
    BearerAuthBackend.authenticate ⟨fun _ => none⟩
      [("Authorization".toList, "Bearer tok".toList)] 0 =
      BearerAuthBackend.authenticate ⟨fun _ => none⟩
        [("Authorization".toList, "Bearer tok".toList)] 0 :=
  (authenticate_stateless ⟨fun _ => none⟩
    [("Authorization".toList, "Bearer tok".toList)] 0).2.2 ⟨fun _ => none⟩ rfl

/-- C9: a record whose `expires_at` is exactly 0 authenticates
successfully at every current time: Python truthiness makes `0` falsy, so
the expiry comparison is skipped, as if no expiry were set. -/
theorem authenticate_expires_at_zero (b : BearerAuthBackend)
    (headers : List (PyStr × PyStr)) (now : Int) (auth_header : PyStr)
    (info : AuthInfo)
    (hh : headersLookup headers "Authorization".toList = some auth_header)
    (hb : pyStartsWith auth_header "Bearer ".toList = true)
    (hl : b.provider (auth_header.drop 7) = some info)
    (he : info.expires_at = some 0) :
    b.authenticate headers now =
      some ({ scopes := info.scopes }, AuthenticatedUser.ofAuthInfo info) := by
  rw [authenticate_eq_checkToken b headers now auth_header hh hb, hl]
  simp [checkToken, expiryCheck, he]

/-- Witness for C9 at a concrete record with `expires_at = 0`, far in the
past of `now = 1000000`. -/
theorem authenticate_expires_at_zero_witness :
    BearerAuthBackend.authenticate ⟨fun _ => some ⟨"u1", ["read"], some 0⟩⟩
      [("Authorization".toList, "Bearer tok".toList)] 1000000 =
      some (⟨["read"]⟩, AuthenticatedUser.ofAuthInfo ⟨"u1", ["read"], some 0⟩) :=
  authenticate_expires_at_zero ⟨fun _ => some ⟨"u1", ["read"], some 0⟩⟩
    [("Authorization".toList, "Bearer tok".toList)] 1000000
    "Bearer tok".toList ⟨"u1", ["read"], some 0⟩ (by decide) (by decide) rfl
    rfl

end BearerAuth
